import Mathlib

/-!
Shallow embedding of `src/microkernel-mod-sequelize.js`, a Microkernel
module that manages the lifecycle of a Sequelize database connection:
option declaration (`latch`), startup (`prepare`: configure, authenticate,
schema-extension hook, schema synchronization) and shutdown (`release`).

Kernel effects (resource publication, log/fatal service calls, the hook
broadcast, and the driver calls `authenticate`/`sync`/`close`) are modelled
as an explicit trace of events; the outcomes of the external driver calls
are inputs (`Env`).
-/

/-- A JavaScript value as it occurs in the option declarations and in the
Sequelize options object (the source assigns both strings and numbers to
`options.port`). -/
inductive JsVal where
  | str (s : String)
  | num (n : Nat)
  | bool (b : Bool)
deriving DecidableEq, Repr

/-- One entry pushed onto `options:options` by `latch` (name, type and
default value; the help texts are irrelevant to the claims). -/
structure OptionDescriptor where
  name : String
  type : String
  default : JsVal
deriving DecidableEq, Repr

/-- The fourteen option descriptors pushed by `latch`
(src/microkernel-mod-sequelize.js lines 44-87). -/
def optionsDeclared : List OptionDescriptor := [
  ⟨"db-dialect",         "string", .str "postgres"⟩,
  ⟨"db-host",            "string", .str "localhost"⟩,
  ⟨"db-port",            "number", .num 5432⟩,
  ⟨"db-database",        "string", .str "example"⟩,
  ⟨"db-username",        "string", .str "example"⟩,
  ⟨"db-password",        "string", .str "example"⟩,
  ⟨"db-schema-drop",     "bool",   .bool false⟩,
  ⟨"db-pool-min",        "number", .num 0⟩,
  ⟨"db-pool-max",        "number", .num 5⟩,
  ⟨"db-pool-idle",       "number", .num 10000⟩,
  ⟨"db-pool-acquire",    "number", .num 10000⟩,
  ⟨"db-pool-evict",      "number", .num 10000⟩,
  ⟨"db-query-retry-match", "string", .str "SQLITE_BUSY"⟩,
  ⟨"db-query-retry-max", "number", .num 5⟩]

/-- Default value of a declared option, looked up by name. -/
def optionDefault (n : String) : Option JsVal :=
  (optionsDeclared.find? (fun d => d.name == n)).map (fun d => d.default)

/-- The parsed option record `opts = kernel.rs("options:options")` as read
by `prepare`/`release`; `daemon`/`daemon_kill` are contributed by other
modules of the host. -/
structure Opts where
  db_dialect : String
  db_host : String
  db_port : Nat
  db_database : String
  db_username : String
  db_password : String
  db_schema_drop : Bool
  db_pool_min : Nat
  db_pool_max : Nat
  db_pool_idle : Nat
  db_pool_acquire : Nat
  db_pool_evict : Nat
  db_query_retry_match : String
  db_query_retry_max : Nat
  daemon : Bool
  daemon_kill : Bool
deriving DecidableEq, Repr

/-- The characters matched by the JavaScript regex class `\s` that can
occur in ASCII option strings. -/
def isWsChar (c : Char) : Bool :=
  c = ' ' || c = '\t' || c = '\n' || c = '\r' || c = '\x0b' || c = '\x0c'

def trimLeftChars (l : List Char) : List Char := l.dropWhile isWsChar

def trimRightChars (l : List Char) : List Char :=
  (l.reverse.dropWhile isWsChar).reverse

/-- Split a character list at every comma (the commas are consumed). -/
def splitCommaChars : List Char → List (List Char)
  | [] => [[]]
  | c :: rest =>
    if c = ',' then [] :: splitCommaChars rest
    else
      match splitCommaChars rest with
      | [] => [[c]]
      | p :: ps => (c :: p) :: ps

/-- Interior and final pieces of a comma split: whitespace adjacent to a
comma is removed, so interior pieces are trimmed on both sides and the
last piece only on the left. -/
def trimInner : List (List Char) → List (List Char)
  | [] => []
  | [p] => [trimLeftChars p]
  | p :: ps => trimRightChars (trimLeftChars p) :: trimInner ps

/-- JavaScript `s.split(/\s*,\s*/)` (line 112): split at each comma
together with the whitespace around it; whitespace not adjacent to a
comma, in particular leading/trailing whitespace of the whole string, is
kept. -/
def jsSplitCommaWs (s : String) : List String :=
  match splitCommaChars s.data with
  | [] => []
  | [p] => [String.mk p]
  | p :: ps => String.mk (trimRightChars p) :: (trimInner ps).map String.mk

/-- `pool` sub-object of the Sequelize options (lines 103-109). -/
structure PoolOpts where
  min : Nat
  max : Nat
  idle : Nat
  acquire : Nat
  evict : Nat
deriving DecidableEq, Repr

/-- `retry` sub-object of the Sequelize options (lines 110-113); the source
field name is `match`. -/
structure RetryOpts where
  max : Nat
  matchList : List String
deriving DecidableEq, Repr

/-- The options object handed to the Sequelize constructor
(lines 97-130). -/
structure SeqOptions where
  operatorsAliases : Bool
  freezeTableName : Bool
  timestamps : Bool
  pool : PoolOpts
  retry : RetryOpts
  dialect : String
  host : String
  port : JsVal
  storage : Option String
deriving DecidableEq, Repr

/-- The constructed `new Sequelize(database, username, password, options)`
handle (line 131). -/
structure SequelizeHandle where
  database : String
  username : String
  password : String
  options : SeqOptions
deriving DecidableEq, Repr

/-- Observable effects of `prepare`/`release`, in order of occurrence. -/
inductive Event where
  | rsSet (slot : String)
  | authenticate
  | logInfo (msg : String)
  | fatal (msg : String)
  | hookCall (participant : Nat)
  | syncCall (force : Bool)
  | closeCall
deriving DecidableEq, Repr

/-- External inputs to `prepare`: the process mode resource
`ctx:procmode`, the outcomes of the driver calls (`none` = success,
`some e` = rejection with error `e`), and the participants registered on
the `sequelize:ddl` hook, in registration order. -/
structure Env where
  procmode : String
  authResult : Option String
  syncResult : Option String
  hookParticipants : List Nat
deriving DecidableEq, Repr

/-- Result of `prepare`: the final state of the shared option record
(the source mutates it in place for sqlite), the published `db` and `dm`
resource slots, the effect trace, and the re-raised error, if any. -/
structure PrepareResult where
  opts : Opts
  db : Option SequelizeHandle
  dmPublished : Bool
  trace : List Event
  err : Option String
deriving DecidableEq, Repr

/-- The resolved connection URL (lines 134-138). -/
def resolvedUrl (opts : Opts) : String :=
  if opts.db_dialect = "sqlite" then
    opts.db_dialect ++ "://" ++ opts.db_database
  else
    opts.db_dialect ++ "://" ++ opts.db_username ++ "@" ++ opts.db_host ++
      ":" ++ toString opts.db_port ++ "/" ++ opts.db_database

/-- Lines 120-126: the sqlite branch clears the credentials in the shared
option record (`opts.db_username = ""; opts.db_password = ""`); other
dialects leave it untouched. -/
def sqliteBranchOpts (opts : Opts) : Opts :=
  if opts.db_dialect = "sqlite" then
    { opts with db_username := "", db_password := "" }
  else opts

/-- The Sequelize options object built at lines 97-130. -/
def buildSeqOptions (opts : Opts) : SeqOptions :=
  { operatorsAliases := false
    freezeTableName := true
    timestamps := false
    pool := ⟨opts.db_pool_min, opts.db_pool_max, opts.db_pool_idle,
             opts.db_pool_acquire, opts.db_pool_evict⟩
    retry := ⟨opts.db_query_retry_max, jsSplitCommaWs opts.db_query_retry_match⟩
    dialect := opts.db_dialect
    host := if opts.db_dialect = "sqlite" then "" else opts.db_host
    port := if opts.db_dialect = "sqlite" then .str "" else .num opts.db_port
    storage := if opts.db_dialect = "sqlite" then some opts.db_database else none }

/-- `new Sequelize(opts.db_database, opts.db_username, opts.db_password,
options)` at line 131 (after the in-place option mutation of the sqlite
branch). -/
def builtHandle (opts : Opts) : SequelizeHandle :=
  ⟨(sqliteBranchOpts opts).db_database, (sqliteBranchOpts opts).db_username,
   (sqliteBranchOpts opts).db_password, buildSeqOptions opts⟩

def authFatalMsg (opts : Opts) (e : String) : String :=
  "failed to open database connection to " ++ resolvedUrl (sqliteBranchOpts opts) ++ ": " ++ e

def authOkMsg (opts : Opts) : String :=
  "opened database connection to " ++ resolvedUrl (sqliteBranchOpts opts)

def syncFatalMsg (e : String) : String :=
  "failed to synchronize database schema: " ++ e

def syncOkMsg (drop : Bool) : String :=
  if drop then "(re)created database schema from scratch"
  else "synchronized existing database schema"

/-- `prepare` (lines 89-162), as a function of the option record and the
external environment. -/
def prepare (opts : Opts) (env : Env) : PrepareResult :=
  -- lines 94-95: only in non daemonized mode
  if opts.daemon || opts.daemon_kill then
    ⟨opts, none, false, [], none⟩
  else
    let optsA := sqliteBranchOpts opts
    -- line 131: construct and publish the handle
    let db := builtHandle opts
    let t0 := [Event.rsSet "db"]
    -- lines 139-144: authenticate, fatal report + re-raise on failure
    match env.authResult with
    | some e =>
      ⟨optsA, some db, false,
       t0 ++ [Event.authenticate, Event.fatal (authFatalMsg opts e)], some e⟩
    | none =>
      let t1 := t0 ++ [Event.authenticate, Event.logInfo (authOkMsg opts)]
      -- lines 146-148: publish dm, broadcast the sequelize:ddl hook
      let t2 := t1 ++ [Event.rsSet "dm"] ++ env.hookParticipants.map Event.hookCall
      -- lines 151-161: schema synchronization, skipped for workers
      if env.procmode = "worker" then
        ⟨optsA, some db, true, t2, none⟩
      else
        match env.syncResult with
        | some e =>
          ⟨optsA, some db, true,
           t2 ++ [Event.syncCall opts.db_schema_drop, Event.fatal (syncFatalMsg e)],
           some e⟩
        | none =>
          ⟨optsA, some db, true,
           t2 ++ [Event.syncCall opts.db_schema_drop,
                  Event.logInfo (syncOkMsg opts.db_schema_drop)],
           none⟩

/-- Result of `release`: its effect trace, whether the handle was closed,
and the (untouched) option record. -/
structure ReleaseResult where
  opts : Opts
  trace : List Event
  closed : Bool
deriving DecidableEq, Repr

/-- `release` (lines 163-172). -/
def release (opts : Opts) : ReleaseResult :=
  if opts.daemon || opts.daemon_kill then
    ⟨opts, [], false⟩
  else
    ⟨opts, [Event.logInfo "closing database connection", Event.closeCall], true⟩

def prepTrace (opts : Opts) (env : Env) : List Event := (prepare opts env).trace

/-! ### Event discriminators and ordering on traces -/

def isFatal : Event → Bool
  | .fatal _ => true
  | _ => false

def isAuth : Event → Bool
  | .authenticate => true
  | _ => false

def isHook : Event → Bool
  | .hookCall _ => true
  | _ => false

def isSyncCall : Event → Bool
  | .syncCall _ => true
  | _ => false

def isDbPublish : Event → Bool
  | .rsSet s => s == "db"
  | _ => false

/-! ### Retry policy execution

The module only configures the retry policy (`retry.max` and `retry.match`
at lines 110-113 of the source); the retry loop itself runs inside the
external ORM, so it is modelled from the spec below. -/

def listContains (pat : List Char) : List Char → Bool
  | [] => pat.isPrefixOf []
  | c :: rest => pat.isPrefixOf (c :: rest) || listContains pat rest

/-- Modelled from the spec: substring matching of an error message against
one configured error-signature pattern (§4.3: "Matching is
substring/pattern based"); the matching code itself lives in the external
ORM, not in this repository. -/
def containsSub (s pat : String) : Bool :=
  listContains pat.data s.data

/-- Modelled from the spec: an error is retryable when it matches any of
the configured error-signature patterns; the matching code lives in the
external ORM. -/
def errorRetryable (patterns : List String) (e : String) : Bool :=
  patterns.any (fun p => containsSub e p)

/-- Modelled from the spec: the ORM-side retry loop, which this repository
only configures.  Run attempt number `attempt` (0-based) with `remaining`
further attempts allowed; on a retryable error with attempts remaining,
retry, else propagate the last error unchanged.  Returns the outcome
together with the number of attempts made. -/
def retryExecAux (patterns : List String) (run : Nat → Except String α) :
    Nat → Nat → Except String α × Nat
  | attempt, 0 => (run attempt, attempt + 1)
  | attempt, r + 1 =>
    match run attempt with
    | .ok v => (.ok v, attempt + 1)
    | .error e =>
      if errorRetryable patterns e then retryExecAux patterns run (attempt + 1) r
      else (.error e, attempt + 1)

/-- Modelled from the spec: execute an operation under the retry policy
with at most `maxAttempts` total attempts (`max-1` retries after the
first attempt). -/
def retryExec (patterns : List String) (maxAttempts : Nat)
    (run : Nat → Except String α) : Except String α × Nat :=
  retryExecAux patterns run 0 (maxAttempts - 1)

/-! ### Concrete configurations used as witnesses and counterexamples -/

/-- A configuration with every option at its declared default, in an
ordinary (non-daemonized) process. -/
def optsBase : Opts :=
  { db_dialect := "postgres", db_host := "localhost", db_port := 5432,
    db_database := "example", db_username := "example", db_password := "example",
    db_schema_drop := false, db_pool_min := 0, db_pool_max := 5,
    db_pool_idle := 10000, db_pool_acquire := 10000, db_pool_evict := 10000,
    db_query_retry_match := "SQLITE_BUSY", db_query_retry_max := 5,
    daemon := false, daemon_kill := false }

def optsLite : Opts := { optsBase with db_dialect := "sqlite", db_database := "test.db" }

def optsPool0 : Opts := { optsBase with db_pool_max := 0 }

def optsDaemon : Opts := { optsBase with daemon := true }

def envBase : Env :=
  { procmode := "normal", authResult := none, syncResult := none,
    hookParticipants := [0, 1] }

def envAuthFail : Env := { envBase with authResult := some "ECONNREFUSED" }

def envWorker : Env := { envBase with procmode := "worker" }

def envSyncFail : Env := { envBase with syncResult := some "SQLITE_ERROR" }

/-- Every event satisfying `p` occurs strictly before every event
satisfying `q` in the trace `t`. -/
def Precedes (p q : Event → Bool) (t : List Event) : Prop :=
  ∀ i j : Nat, ∀ hi : i < t.length, ∀ hj : j < t.length,
    p (t.get ⟨i, hi⟩) = true → q (t.get ⟨j, hj⟩) = true → i < j

lemma precedes_split (p q : Event → Bool) (t1 t2 : List Event)
    (hp2 : ∀ e ∈ t2, p e = false) (hq1 : ∀ e ∈ t1, q e = false) :
    Precedes p q (t1 ++ t2) := by
  intro i j hi hj hpi hqj
  have hi1 : i < t1.length := by
    by_contra hcon
    push_neg at hcon
    have e1 : (t1 ++ t2)[i]? = some ((t1 ++ t2).get ⟨i, hi⟩) := by
      rw [List.getElem?_eq_getElem hi, List.get_eq_getElem]
    have e2 : (t1 ++ t2)[i]? = t2[i - t1.length]? := List.getElem?_append_right hcon
    have e3 : t2[i - t1.length]? = some ((t1 ++ t2).get ⟨i, hi⟩) := by
      rw [← e2]; exact e1
    have := hp2 _ (List.getElem?_mem e3)
    rw [hpi] at this
    exact Bool.noConfusion this
  have hj1 : t1.length ≤ j := by
    by_contra hcon
    push_neg at hcon
    have e1 : (t1 ++ t2)[j]? = some ((t1 ++ t2).get ⟨j, hj⟩) := by
      rw [List.getElem?_eq_getElem hj, List.get_eq_getElem]
    have e2 : (t1 ++ t2)[j]? = t1[j]? := List.getElem?_append_left hcon
    have e3 : t1[j]? = some ((t1 ++ t2).get ⟨j, hj⟩) := by
      rw [← e2]; exact e1
    have := hq1 _ (List.getElem?_mem e3)
    rw [hqj] at this
    exact Bool.noConfusion this
  omega

lemma precedes_of_no_q (p q : Event → Bool) (t : List Event)
    (h : ∀ e ∈ t, q e = false) : Precedes p q t := by
  intro i j hi hj hpi hqj
  have := h _ (List.get_mem t j hj)
  rw [hqj] at this
  exact Bool.noConfusion this

lemma precedes_of_no_p (p q : Event → Bool) (t : List Event)
    (h : ∀ e ∈ t, p e = false) : Precedes p q t := by
  intro i j hi hj hpi hqj
  have := h _ (List.get_mem t i hi)
  rw [hpi] at this
  exact Bool.noConfusion this

/-- The four shapes the `prepare` effect trace can take: daemon-mode skip,
authentication failure, worker-mode success (no sync), and the full
sequence ending in a sync outcome. -/
lemma prepare_trace_cases (opts : Opts) (env : Env) :
    ((opts.daemon || opts.daemon_kill) = true ∧ prepTrace opts env = []) ∨
    (∃ e, env.authResult = some e ∧
      prepTrace opts env =
        [Event.rsSet "db", Event.authenticate, Event.fatal (authFatalMsg opts e)]) ∨
    (env.authResult = none ∧ env.procmode = "worker" ∧
      prepTrace opts env =
        [Event.rsSet "db", Event.authenticate, Event.logInfo (authOkMsg opts),
         Event.rsSet "dm"] ++ env.hookParticipants.map Event.hookCall) ∨
    (∃ x, env.authResult = none ∧ env.procmode ≠ "worker" ∧
      (x = Event.fatal (syncFatalMsg ((env.syncResult).getD "")) ∨
       x = Event.logInfo (syncOkMsg opts.db_schema_drop)) ∧
      prepTrace opts env =
        [Event.rsSet "db", Event.authenticate, Event.logInfo (authOkMsg opts),
         Event.rsSet "dm"] ++ env.hookParticipants.map Event.hookCall ++
          [Event.syncCall opts.db_schema_drop, x]) := by
  unfold prepTrace prepare
  cases hdm : (opts.daemon || opts.daemon_kill) with
  | true => left; exact ⟨rfl, by simp [hdm]⟩
  | false =>
    cases ha : env.authResult with
    | some e =>
      right; left
      exact ⟨e, rfl, by simp [hdm]⟩
    | none =>
      by_cases hw : env.procmode = "worker"
      · right; right; left
        exact ⟨rfl, hw, by simp [hdm, hw]⟩
      · right; right; right
        cases hs : env.syncResult with
        | some e =>
          exact ⟨Event.fatal (syncFatalMsg e), rfl, hw, Or.inl rfl,
                 by simp [hdm, hw]⟩
        | none =>
          exact ⟨Event.logInfo (syncOkMsg opts.db_schema_drop), rfl, hw, Or.inr rfl,
                 by simp [hdm, hw]⟩

lemma prepare_db_nonDaemon (opts : Opts) (env : Env)
    (hd : opts.daemon = false) (hk : opts.daemon_kill = false) :
    (prepare opts env).db = some (builtHandle opts) := by
  unfold prepare
  cases ha : env.authResult with
  | some e => simp [hd, hk]
  | none =>
    by_cases hw : env.procmode = "worker"
    · simp [hd, hk, hw]
    · cases hs : env.syncResult with
      | some e => simp [hd, hk, hw]
      | none => simp [hd, hk, hw]

lemma prepare_db_cases (opts : Opts) (env : Env) :
    (prepare opts env).db = none ∨ (prepare opts env).db = some (builtHandle opts) := by
  cases hd : opts.daemon with
  | true => left; simp [prepare, hd]
  | false =>
    cases hk : opts.daemon_kill with
    | true => left; simp [prepare, hd, hk]
    | false => right; exact prepare_db_nonDaemon opts env hd hk

lemma prepare_opts_eq (opts : Opts) (env : Env) :
    (prepare opts env).opts =
      if (opts.daemon || opts.daemon_kill) then opts else sqliteBranchOpts opts := by
  unfold prepare
  cases hdm : (opts.daemon || opts.daemon_kill) with
  | true => simp [hdm]
  | false =>
    cases ha : env.authResult with
    | some e => simp [hdm]
    | none =>
      by_cases hw : env.procmode = "worker"
      · simp [hdm, hw]
      · cases hs : env.syncResult with
        | some e => simp [hdm, hw]
        | none => simp [hdm, hw]

lemma release_opts_eq (opts : Opts) : (release opts).opts = opts := by
  unfold release
  split <;> rfl

lemma resolvedUrl_sqliteBranch (opts : Opts) :
    resolvedUrl (sqliteBranchOpts opts) = resolvedUrl opts := by
  unfold sqliteBranchOpts resolvedUrl
  by_cases h : opts.db_dialect = "sqlite" <;> simp [h]

lemma countP_isFatal_hookCalls (ps : List Nat) :
    (ps.map Event.hookCall).countP isFatal = 0 := by
  induction ps with
  | nil => rfl
  | cons a ps ih => simp [List.countP_cons, isFatal, ih]

lemma filter_isHook_hookCalls (ps : List Nat) :
    (ps.map Event.hookCall).filter isHook = ps.map Event.hookCall := by
  induction ps with
  | nil => rfl
  | cons a ps ih => simp [List.filter_cons, isHook, ih]

lemma filter_isSyncCall_hookCalls (ps : List Nat) :
    (ps.map Event.hookCall).filter isSyncCall = [] := by
  induction ps with
  | nil => rfl
  | cons a ps ih => simp [List.filter_cons, isSyncCall, ih]

lemma retryExecAux_exhaust (patterns : List String) (run : Nat → Except String α) :
    ∀ r a e,
      (∀ k, k ≤ r → ∃ eb, run (a + k) = Except.error eb ∧
        errorRetryable patterns eb = true) →
      run (a + r) = Except.error e →
      retryExecAux patterns run a r = (Except.error e, a + r + 1) := by
  intro r
  induction r with
  | zero =>
    intro a e hall hr
    rw [Nat.add_zero] at hr
    simp [retryExecAux, hr]
  | succ r ih =>
    intro a e hall hr
    obtain ⟨e0, h0, hret⟩ := hall 0 (Nat.zero_le _)
    rw [Nat.add_zero] at h0
    have step : retryExecAux patterns run a (r + 1) = retryExecAux patterns run (a + 1) r := by
      simp [retryExecAux, h0, hret]
    rw [step]
    have hall2 : ∀ k, k ≤ r → ∃ eb, run (a + 1 + k) = Except.error eb ∧
        errorRetryable patterns eb = true := by
      intro k hk
      have := hall (k + 1) (Nat.succ_le_succ hk)
      rwa [show a + (k + 1) = a + 1 + k by omega] at this
    have hr2 : run (a + 1 + r) = Except.error e := by
      rwa [show a + 1 + r = a + (r + 1) by omega]
    have := ih (a + 1) e hall2 hr2
    rw [this]
    congr 1
    omega

/-! ### Claim theorems -/

/-- C1: when the process mode equals "worker", the schema-synchronization
step of `prepare` is a no-op: `db.sync` is not invoked (no `syncCall`
event occurs) regardless of the schema-drop flag. -/
theorem worker_mode_skips_schema_sync (opts : Opts) (env : Env)
    (hw : env.procmode = "worker") :
    ∀ f : Bool, Event.syncCall f ∉ prepTrace opts env := by
  intro f
  rcases prepare_trace_cases opts env with ⟨-, h⟩ | ⟨e, -, h⟩ | ⟨-, -, h⟩ |
    ⟨x, -, hw2, -, -⟩
  · simp [h]
  · simp [h]
  · rw [h]
    simp [List.mem_append]
  · exact absurd hw hw2

theorem worker_mode_skips_schema_sync_witness :
    Event.syncCall true ∉ prepTrace optsBase envWorker ∧
    Event.syncCall false ∉ prepTrace optsBase envWorker :=
  ⟨worker_mode_skips_schema_sync optsBase envWorker rfl true,
   worker_mode_skips_schema_sync optsBase envWorker rfl false⟩

/-- C2: for a configuration whose dialect is "sqlite", `prepare` forces
the username, password, host and port of the constructed handle to the
empty string, uses the configured database name verbatim as the storage
path, and clears the credentials in the shared option record. -/
theorem sqlite_forces_local_config (opts : Opts) (env : Env)
    (h : opts.db_dialect = "sqlite") :
    (∀ hd : SequelizeHandle, (prepare opts env).db = some hd →
        hd.username = "" ∧ hd.password = "" ∧ hd.options.host = "" ∧
        hd.options.port = JsVal.str "" ∧
        hd.options.storage = some opts.db_database ∧
        hd.database = opts.db_database) ∧
    (opts.daemon = false → opts.daemon_kill = false →
        (prepare opts env).opts.db_username = "" ∧
        (prepare opts env).opts.db_password = "") := by
  constructor
  · intro hd hdb
    rcases prepare_db_cases opts env with hn | hs
    · rw [hn] at hdb; exact Option.noConfusion hdb
    · rw [hs] at hdb
      have : hd = builtHandle opts := (Option.some.inj hdb).symm
      subst this
      simp [builtHandle, sqliteBranchOpts, buildSeqOptions, h]
  · intro hd hk
    rw [prepare_opts_eq]
    simp [hd, hk, sqliteBranchOpts, h]

theorem sqlite_forces_local_config_witness :
    (builtHandle optsLite).username = "" ∧ (builtHandle optsLite).password = "" ∧
    (builtHandle optsLite).options.host = "" ∧
    (builtHandle optsLite).options.port = JsVal.str "" ∧
    (builtHandle optsLite).options.storage = some optsLite.db_database ∧
    (builtHandle optsLite).database = optsLite.db_database ∧
    (prepare optsLite envBase).opts.db_username = "" ∧
    (prepare optsLite envBase).opts.db_password = "" := by
  have h1 := (sqlite_forces_local_config optsLite envBase rfl).1 (builtHandle optsLite)
    (prepare_db_nonDaemon optsLite envBase rfl rfl)
  have h2 := (sqlite_forces_local_config optsLite envBase rfl).2 rfl rfl
  exact ⟨h1.1, h1.2.1, h1.2.2.1, h1.2.2.2.1, h1.2.2.2.2.1, h1.2.2.2.2.2, h2.1, h2.2⟩

/-- C4 counterexample: the configuration record is not immutable — with
dialect "sqlite", `prepare` overwrites its username (and password) fields
in place, so the record after `prepare` differs from the one gathered at
startup. -/
theorem config_record_mutated_cex :
    (prepare optsLite envBase).opts ≠ optsLite := by
  intro hcon
  have h2 : (prepare optsLite envBase).opts.db_username = "" := by
    rw [prepare_opts_eq]
    simp [optsLite, optsBase, sqliteBranchOpts]
  rw [hcon] at h2
  exact absurd h2 (by decide)

/-- C4 amended: no lifecycle operation modifies any field of the
configuration record, except that `prepare` (in non-daemonized mode, when
the dialect is "sqlite") overwrites the username and password fields with
the empty string; `release` modifies nothing. -/
theorem config_record_mutation_scope (opts : Opts) (env : Env) :
    (prepare opts env).opts.db_dialect = opts.db_dialect ∧
    (prepare opts env).opts.db_host = opts.db_host ∧
    (prepare opts env).opts.db_port = opts.db_port ∧
    (prepare opts env).opts.db_database = opts.db_database ∧
    (prepare opts env).opts.db_schema_drop = opts.db_schema_drop ∧
    (prepare opts env).opts.db_pool_min = opts.db_pool_min ∧
    (prepare opts env).opts.db_pool_max = opts.db_pool_max ∧
    (prepare opts env).opts.db_pool_idle = opts.db_pool_idle ∧
    (prepare opts env).opts.db_pool_acquire = opts.db_pool_acquire ∧
    (prepare opts env).opts.db_pool_evict = opts.db_pool_evict ∧
    (prepare opts env).opts.db_query_retry_match = opts.db_query_retry_match ∧
    (prepare opts env).opts.db_query_retry_max = opts.db_query_retry_max ∧
    (prepare opts env).opts.daemon = opts.daemon ∧
    (prepare opts env).opts.daemon_kill = opts.daemon_kill ∧
    (prepare opts env).opts.db_username =
      (if opts.daemon || opts.daemon_kill then opts.db_username
       else if opts.db_dialect = "sqlite" then "" else opts.db_username) ∧
    (prepare opts env).opts.db_password =
      (if opts.daemon || opts.daemon_kill then opts.db_password
       else if opts.db_dialect = "sqlite" then "" else opts.db_password) ∧
    (release opts).opts = opts := by
  rw [prepare_opts_eq]
  cases hdm : (opts.daemon || opts.daemon_kill) with
  | true => simp [release_opts_eq]
  | false =>
    by_cases hsq : opts.db_dialect = "sqlite" <;>
      simp [sqliteBranchOpts, hsq, release_opts_eq]

/-- C6: in a daemon launcher/killer process, `prepare` returns immediately
without constructing or publishing a handle and without authenticating,
and `release` returns immediately without closing; otherwise `release`
logs intent and closes the handle. -/
theorem daemon_mode_skips_lifecycle (opts : Opts) (env : Env) :
    ((opts.daemon = true ∨ opts.daemon_kill = true) →
       (prepare opts env).db = none ∧ prepTrace opts env = [] ∧
       (prepare opts env).err = none ∧ (prepare opts env).dmPublished = false ∧
       (release opts).trace = [] ∧ (release opts).closed = false) ∧
    (opts.daemon = false → opts.daemon_kill = false →
       (release opts).trace =
         [Event.logInfo "closing database connection", Event.closeCall] ∧
       (release opts).closed = true) := by
  constructor
  · intro h
    have hdm : (opts.daemon || opts.daemon_kill) = true := by
      rcases h with h | h <;> simp [h]
    simp [prepare, prepTrace, release, hdm]
  · intro h1 h2
    simp [release, h1, h2]

/-- C3: a failure of authentication or of schema synchronization produces
exactly one fatal-level report (with the failing context) and re-raises
the original error unchanged; when nothing fails no fatal report occurs,
and `release` never uses the fatal channel. -/
theorem fatal_report_contract (opts : Opts) (env : Env)
    (hd : opts.daemon = false) (hk : opts.daemon_kill = false) :
    (∀ e, env.authResult = some e →
       (prepare opts env).err = some e ∧
       (prepTrace opts env).countP isFatal = 1 ∧
       Event.fatal (authFatalMsg opts e) ∈ prepTrace opts env) ∧
    (env.authResult = none → env.procmode ≠ "worker" →
       ∀ e, env.syncResult = some e →
       (prepare opts env).err = some e ∧
       (prepTrace opts env).countP isFatal = 1 ∧
       Event.fatal (syncFatalMsg e) ∈ prepTrace opts env) ∧
    ((prepare opts env).err = none → (prepTrace opts env).countP isFatal = 0) ∧
    (release opts).trace.countP isFatal = 0 := by
  refine ⟨?_, ?_, ?_, ?_⟩
  · intro e ha
    simp [prepare, prepTrace, hd, hk, ha, List.countP_cons, isFatal]
  · intro ha hw e hs
    simp [prepare, prepTrace, hd, hk, ha, hw, hs, List.countP_append,
      List.countP_cons, isFatal, countP_isFatal_hookCalls]
  · intro hnone
    cases ha : env.authResult with
    | some e => simp [prepare, hd, hk, ha] at hnone
    | none =>
      by_cases hw : env.procmode = "worker"
      · simp [prepare, prepTrace, hd, hk, ha, hw, List.countP_append,
          List.countP_cons, isFatal, countP_isFatal_hookCalls]
      · cases hs : env.syncResult with
        | some e => simp [prepare, hd, hk, ha, hw, hs] at hnone
        | none =>
          simp [prepare, prepTrace, hd, hk, ha, hw, hs, List.countP_append,
            List.countP_cons, isFatal, countP_isFatal_hookCalls]
  · unfold release
    split <;> simp [List.countP_cons, isFatal]

theorem fatal_report_contract_witness :
    ((prepare optsBase envAuthFail).err = some "ECONNREFUSED" ∧
     (prepTrace optsBase envAuthFail).countP isFatal = 1 ∧
     Event.fatal (authFatalMsg optsBase "ECONNREFUSED") ∈
       prepTrace optsBase envAuthFail) ∧
    ((prepare optsBase envSyncFail).err = some "SQLITE_ERROR" ∧
     (prepTrace optsBase envSyncFail).countP isFatal = 1 ∧
     Event.fatal (syncFatalMsg "SQLITE_ERROR") ∈ prepTrace optsBase envSyncFail) ∧
    (prepTrace optsBase envBase).countP isFatal = 0 :=
  ⟨(fatal_report_contract optsBase envAuthFail rfl rfl).1 "ECONNREFUSED" rfl,
   (fatal_report_contract optsBase envSyncFail rfl rfl).2.1 rfl (by decide)
     "SQLITE_ERROR" rfl,
   (fatal_report_contract optsBase envBase rfl rfl).2.2.1 rfl⟩

/-- C8: the resolved connection URL logged on successful authentication is
`sqlite://<database>` for the sqlite dialect and
`<dialect>://<username>@<host>:<port>/<database>` otherwise; the password
is never embedded, so the URL is identical for any two password values. -/
theorem resolved_url_contract (opts : Opts) (env : Env) :
    (opts.db_dialect = "sqlite" →
       resolvedUrl opts = "sqlite://" ++ opts.db_database) ∧
    (opts.db_dialect ≠ "sqlite" →
       resolvedUrl opts =
         opts.db_dialect ++ "://" ++ opts.db_username ++ "@" ++ opts.db_host ++
           ":" ++ toString opts.db_port ++ "/" ++ opts.db_database) ∧
    (∀ p1 p2 : String,
       resolvedUrl { opts with db_password := p1 } =
         resolvedUrl { opts with db_password := p2 }) ∧
    (opts.daemon = false → opts.daemon_kill = false → env.authResult = none →
       Event.logInfo ("opened database connection to " ++ resolvedUrl opts) ∈
         prepTrace opts env) := by
  refine ⟨?_, ?_, ?_, ?_⟩
  · intro h
    simp [resolvedUrl, h]
  · intro h
    simp [resolvedUrl, h]
  · intro p1 p2
    simp [resolvedUrl]
  · intro hd hk ha
    have hmsg : authOkMsg opts = "opened database connection to " ++ resolvedUrl opts := by
      unfold authOkMsg
      rw [resolvedUrl_sqliteBranch]
    rcases prepare_trace_cases opts env with ⟨hdm, -⟩ | ⟨e, ha2, -⟩ | ⟨-, -, h⟩ |
      ⟨x, -, -, -, h⟩
    · rw [hd, hk] at hdm
      exact Bool.noConfusion hdm
    · rw [ha] at ha2
      exact Option.noConfusion ha2
    · rw [h, ← hmsg]
      simp
    · rw [h, ← hmsg]
      simp

theorem resolved_url_contract_witness :
    resolvedUrl optsLite = "sqlite://" ++ optsLite.db_database ∧
    resolvedUrl optsBase = optsBase.db_dialect ++ "://" ++ optsBase.db_username ++
      "@" ++ optsBase.db_host ++ ":" ++ toString optsBase.db_port ++ "/" ++
      optsBase.db_database ∧
    Event.logInfo ("opened database connection to " ++ resolvedUrl optsBase) ∈
      prepTrace optsBase envBase :=
  ⟨(resolved_url_contract optsLite envBase).1 rfl,
   (resolved_url_contract optsBase envBase).2.1 (by decide),
   (resolved_url_contract optsBase envBase).2.2.2 rfl rfl rfl⟩

/-- C9 counterexample: with pool max = 0 (invalid per the spec), `prepare`
does not fail fast with a configuration error — it makes a connection
attempt (`authenticate` occurs), reports nothing on the fatal channel and
returns without error. -/
theorem no_config_error_cex :
    Event.authenticate ∈ prepTrace optsPool0 envBase ∧
    (prepare optsPool0 envBase).err = none ∧
    (prepTrace optsPool0 envBase).countP isFatal = 0 ∧
    optsPool0.db_pool_max = 0 := by
  decide

/-- C9 amended: `prepare` performs no validation of the pool bounds or the
dialect: in every non-daemonized configuration (including pool max = 0 and
unknown dialects) it constructs the handle carrying the configured pool
bounds and dialect verbatim and proceeds to a connection attempt; any
configuration failure is left to the underlying ORM. -/
theorem no_config_validation (opts : Opts) (env : Env)
    (hd : opts.daemon = false) (hk : opts.daemon_kill = false) :
    Event.authenticate ∈ prepTrace opts env ∧
    (prepare opts env).db = some (builtHandle opts) ∧
    (builtHandle opts).options.pool.max = opts.db_pool_max ∧
    (builtHandle opts).options.pool.min = opts.db_pool_min ∧
    (builtHandle opts).options.dialect = opts.db_dialect := by
  refine ⟨?_, prepare_db_nonDaemon opts env hd hk, ?_, ?_, ?_⟩
  · rcases prepare_trace_cases opts env with ⟨hdm, -⟩ | ⟨e, -, h⟩ | ⟨-, -, h⟩ |
      ⟨x, -, -, -, h⟩
    · rw [hd, hk] at hdm
      exact Bool.noConfusion hdm
    · rw [h]; simp
    · rw [h]; simp
    · rw [h]; simp
  · simp [builtHandle, buildSeqOptions]
  · simp [builtHandle, buildSeqOptions]
  · simp [builtHandle, buildSeqOptions]

theorem no_config_validation_witness :
    Event.authenticate ∈ prepTrace optsPool0 envBase ∧
    (prepare optsPool0 envBase).db = some (builtHandle optsPool0) ∧
    (builtHandle optsPool0).options.pool.max = optsPool0.db_pool_max ∧
    (builtHandle optsPool0).options.pool.min = optsPool0.db_pool_min ∧
    (builtHandle optsPool0).options.dialect = optsPool0.db_dialect :=
  no_config_validation optsPool0 envBase rfl rfl

/-- C10: in every non-daemonized run, the handle is published into the
process-wide `db` slot before authentication is attempted, so on an
authentication failure the slot already holds the never-authenticated
handle while the error is re-raised. -/
theorem db_published_before_auth (opts : Opts) (env : Env)
    (hd : opts.daemon = false) (hk : opts.daemon_kill = false) :
    (prepare opts env).db = some (builtHandle opts) ∧
    Precedes isDbPublish isAuth (prepTrace opts env) ∧
    (∀ e, env.authResult = some e →
       (prepare opts env).db = some (builtHandle opts) ∧
       (prepare opts env).err = some e) := by
  refine ⟨prepare_db_nonDaemon opts env hd hk, ?_, ?_⟩
  · rcases prepare_trace_cases opts env with ⟨hdm, -⟩ | ⟨e, -, h⟩ | ⟨-, -, h⟩ |
      ⟨x, -, -, hx, h⟩
    · rw [hd, hk] at hdm
      exact Bool.noConfusion hdm
    · rw [h]
      exact precedes_split _ _ [Event.rsSet "db"]
        [Event.authenticate, Event.fatal (authFatalMsg opts e)]
        (by intro ev hev; simp at hev; rcases hev with rfl | rfl <;> rfl)
        (by intro ev hev; simp at hev; subst hev; rfl)
    · rw [h]
      exact precedes_split _ _ [Event.rsSet "db"]
        ([Event.authenticate, Event.logInfo (authOkMsg opts), Event.rsSet "dm"] ++
          env.hookParticipants.map Event.hookCall)
        (by intro ev hev
            simp at hev
            rcases hev with rfl | rfl | rfl | ⟨a, -, rfl⟩ <;> rfl)
        (by intro ev hev; simp at hev; subst hev; rfl)
    · rcases hx with rfl | rfl <;>
      · rw [h]
        exact precedes_split _ _ [Event.rsSet "db"]
          ([Event.authenticate, Event.logInfo (authOkMsg opts), Event.rsSet "dm"] ++
            env.hookParticipants.map Event.hookCall ++
            [Event.syncCall opts.db_schema_drop, _])
          (by intro ev hev
              simp at hev
              rcases hev with rfl | rfl | rfl | ⟨a, -, rfl⟩ | rfl | rfl <;> rfl)
          (by intro ev hev; simp at hev; subst hev; rfl)
  · intro e ha
    exact ⟨prepare_db_nonDaemon opts env hd hk, by simp [prepare, hd, hk, ha]⟩

theorem db_published_before_auth_witness :
    (prepare optsBase envAuthFail).db = some (builtHandle optsBase) ∧
    (0 : Nat) < 1 ∧
    (prepare optsBase envAuthFail).err = some "ECONNREFUSED" :=
  ⟨(db_published_before_auth optsBase envAuthFail rfl rfl).1,
   (db_published_before_auth optsBase envAuthFail rfl rfl).2.1 0 1
     (by decide) (by decide) (by decide) (by decide),
   ((db_published_before_auth optsBase envAuthFail rfl rfl).2.2 "ECONNREFUSED" rfl).2⟩

theorem daemon_mode_skips_lifecycle_witness :
    ((prepare optsDaemon envBase).db = none ∧ prepTrace optsDaemon envBase = [] ∧
     (prepare optsDaemon envBase).err = none ∧
     (prepare optsDaemon envBase).dmPublished = false ∧
     (release optsDaemon).trace = [] ∧ (release optsDaemon).closed = false) ∧
    ((release optsBase).trace =
       [Event.logInfo "closing database connection", Event.closeCall] ∧
     (release optsBase).closed = true) :=
  ⟨(daemon_mode_skips_lifecycle optsDaemon envBase).1 (Or.inl rfl),
   (daemon_mode_skips_lifecycle optsBase envBase).2 rfl rfl⟩

/-- C5: the `prepare` steps occur in strict sequence — every hook
participant runs after a successful authentication (and in registration
order, all of them), every hook event precedes the schema-synchronization
call, and on the success path the synchronization call is part of the
trace before control returns. -/
theorem prepare_phase_ordering (opts : Opts) (env : Env) :
    Precedes isAuth isHook (prepTrace opts env) ∧
    Precedes isHook isSyncCall (prepTrace opts env) ∧
    Precedes isAuth isSyncCall (prepTrace opts env) ∧
    (opts.daemon = false → opts.daemon_kill = false → env.authResult = none →
       (prepTrace opts env).filter isHook =
         env.hookParticipants.map Event.hookCall) ∧
    (∀ e, env.authResult = some e →
       (prepTrace opts env).filter isHook = [] ∧
       (prepTrace opts env).filter isSyncCall = []) ∧
    (opts.daemon = false → opts.daemon_kill = false → env.authResult = none →
       env.procmode ≠ "worker" →
       Event.syncCall opts.db_schema_drop ∈ prepTrace opts env) := by
  rcases prepare_trace_cases opts env with ⟨hdm, h⟩ | ⟨e, hae, h⟩ | ⟨hae, hw, h⟩ |
    ⟨x, hae, hw, hx, h⟩
  · refine ⟨?_, ?_, ?_, ?_, ?_, ?_⟩
    · rw [h]; exact precedes_of_no_q _ _ _ (by simp)
    · rw [h]; exact precedes_of_no_q _ _ _ (by simp)
    · rw [h]; exact precedes_of_no_q _ _ _ (by simp)
    · intro hd hk ha
      rw [hd, hk] at hdm
      exact Bool.noConfusion hdm
    · intro e2 hae2
      rw [h]
      simp
    · intro hd hk ha hw2
      rw [hd, hk] at hdm
      exact Bool.noConfusion hdm
  · refine ⟨?_, ?_, ?_, ?_, ?_, ?_⟩
    · rw [h]
      exact precedes_of_no_q _ _ _
        (by intro ev hev; simp at hev; rcases hev with rfl | rfl | rfl <;> rfl)
    · rw [h]
      exact precedes_of_no_q _ _ _
        (by intro ev hev; simp at hev; rcases hev with rfl | rfl | rfl <;> rfl)
    · rw [h]
      exact precedes_of_no_q _ _ _
        (by intro ev hev; simp at hev; rcases hev with rfl | rfl | rfl <;> rfl)
    · intro hd hk ha
      rw [ha] at hae
      exact Option.noConfusion hae
    · intro e2 hae2
      rw [h]
      constructor <;> simp [List.filter_cons, isHook, isSyncCall]
    · intro hd hk ha hw2
      rw [ha] at hae
      exact Option.noConfusion hae
  · refine ⟨?_, ?_, ?_, ?_, ?_, ?_⟩
    · rw [h]
      exact precedes_split _ _
        [Event.rsSet "db", Event.authenticate, Event.logInfo (authOkMsg opts)]
        (Event.rsSet "dm" :: env.hookParticipants.map Event.hookCall)
        (by intro ev hev; simp at hev; rcases hev with rfl | ⟨a, -, rfl⟩ <;> rfl)
        (by intro ev hev; simp at hev; rcases hev with rfl | rfl | rfl <;> rfl)
    · rw [h]
      exact precedes_of_no_q _ _ _
        (by intro ev hev
            simp at hev
            rcases hev with rfl | rfl | rfl | rfl | ⟨a, -, rfl⟩ <;> rfl)
    · rw [h]
      exact precedes_of_no_q _ _ _
        (by intro ev hev
            simp at hev
            rcases hev with rfl | rfl | rfl | rfl | ⟨a, -, rfl⟩ <;> rfl)
    · intro hd hk ha
      rw [h]
      simp [List.filter_append, List.filter_cons, isHook, filter_isHook_hookCalls]
    · intro e2 hae2
      rw [hae] at hae2
      exact Option.noConfusion hae2
    · intro hd hk ha hw2
      exact absurd hw hw2
  · have hxa : isAuth x = false := by rcases hx with rfl | rfl <;> rfl
    have hxh : isHook x = false := by rcases hx with rfl | rfl <;> rfl
    have hxs : isSyncCall x = false := by rcases hx with rfl | rfl <;> rfl
    refine ⟨?_, ?_, ?_, ?_, ?_, ?_⟩
    · rw [h]
      exact precedes_split _ _
        [Event.rsSet "db", Event.authenticate, Event.logInfo (authOkMsg opts)]
        (Event.rsSet "dm" :: (env.hookParticipants.map Event.hookCall ++
          [Event.syncCall opts.db_schema_drop, x]))
        (by intro ev hev
            simp at hev
            rcases hev with rfl | ⟨a, -, rfl⟩ | rfl | rfl <;>
              first | rfl | assumption)
        (by intro ev hev; simp at hev; rcases hev with rfl | rfl | rfl <;> rfl)
    · rw [h]
      exact precedes_split _ _
        ([Event.rsSet "db", Event.authenticate, Event.logInfo (authOkMsg opts),
          Event.rsSet "dm"] ++ env.hookParticipants.map Event.hookCall)
        [Event.syncCall opts.db_schema_drop, x]
        (by intro ev hev
            simp at hev
            rcases hev with rfl | rfl <;> first | rfl | assumption)
        (by intro ev hev
            simp at hev
            rcases hev with rfl | rfl | rfl | rfl | ⟨a, -, rfl⟩ <;> rfl)
    · rw [h]
      exact precedes_split _ _
        [Event.rsSet "db", Event.authenticate, Event.logInfo (authOkMsg opts)]
        (Event.rsSet "dm" :: (env.hookParticipants.map Event.hookCall ++
          [Event.syncCall opts.db_schema_drop, x]))
        (by intro ev hev
            simp at hev
            rcases hev with rfl | ⟨a, -, rfl⟩ | rfl | rfl <;>
              first | rfl | assumption)
        (by intro ev hev; simp at hev; rcases hev with rfl | rfl | rfl <;> rfl)
    · intro hd hk ha
      rw [h]
      rcases hx with rfl | rfl <;>
        simp [List.filter_append, List.filter_cons, isHook, filter_isHook_hookCalls]
    · intro e2 hae2
      rw [hae] at hae2
      exact Option.noConfusion hae2
    · intro hd hk ha hw2
      rw [h]
      simp [List.mem_append]

theorem prepare_phase_ordering_witness :
    (prepTrace optsBase envBase).filter isHook =
      [Event.hookCall 0, Event.hookCall 1] ∧
    (1 : Nat) < 4 ∧
    Event.syncCall false ∈ prepTrace optsBase envBase := by
  refine ⟨?_, ?_, ?_⟩
  · rw [(prepare_phase_ordering optsBase envBase).2.2.2.1 rfl rfl rfl]
    rfl
  · exact (prepare_phase_ordering optsBase envBase).1 1 4
      (by decide) (by decide) (by decide) (by decide)
  · exact (prepare_phase_ordering optsBase envBase).2.2.2.2.2 rfl rfl rfl
      (by decide)

/-- C7: the retry policy is configured from `db-query-retry-match`
(default "SQLITE_BUSY", split on commas with surrounding whitespace) and
`db-query-retry-max` (default 5), both wired verbatim into the handle; an
operation whose every attempt fails with a matching error is retried up to
max-1 additional times and then the last error propagates unchanged,
while an operation whose first error matches no pattern is never retried
even with attempts remaining. -/
theorem retry_policy_contract :
    optionDefault "db-query-retry-match" = some (JsVal.str "SQLITE_BUSY") ∧
    optionDefault "db-query-retry-max" = some (JsVal.num 5) ∧
    jsSplitCommaWs "SQLITE_BUSY" = ["SQLITE_BUSY"] ∧
    jsSplitCommaWs "SQLITE_BUSY , ECONNRESET,EBUSY" =
      ["SQLITE_BUSY", "ECONNRESET", "EBUSY"] ∧
    (∀ (opts : Opts) (env : Env) (hd : SequelizeHandle),
        (prepare opts env).db = some hd →
        hd.options.retry.max = opts.db_query_retry_max ∧
        hd.options.retry.matchList = jsSplitCommaWs opts.db_query_retry_match) ∧
    (∀ (patterns : List String) (maxA : Nat) (run : Nat → Except String Nat)
        (e : String),
        1 ≤ maxA →
        (∀ n, n < maxA → ∃ eb, run n = Except.error eb ∧
          errorRetryable patterns eb = true) →
        run (maxA - 1) = Except.error e →
        retryExec patterns maxA run = (Except.error e, maxA)) ∧
    (∀ (patterns : List String) (maxA : Nat) (run : Nat → Except String Nat)
        (e : String),
        run 0 = Except.error e → errorRetryable patterns e = false →
        retryExec patterns maxA run = (Except.error e, 1)) := by
  refine ⟨rfl, rfl, rfl, rfl, ?_, ?_, ?_⟩
  · intro opts env hd hdb
    rcases prepare_db_cases opts env with hn | hs
    · rw [hn] at hdb
      exact Option.noConfusion hdb
    · rw [hs] at hdb
      have : hd = builtHandle opts := (Option.some.inj hdb).symm
      subst this
      exact ⟨rfl, rfl⟩
  · intro patterns maxA run e h1 hall hlast
    have hall2 : ∀ k, k ≤ maxA - 1 → ∃ eb, run (0 + k) = Except.error eb ∧
        errorRetryable patterns eb = true := by
      intro k hk
      rw [Nat.zero_add]
      exact hall k (by omega)
    have hr2 : run (0 + (maxA - 1)) = Except.error e := by
      rw [Nat.zero_add]
      exact hlast
    have := retryExecAux_exhaust patterns run (maxA - 1) 0 e hall2 hr2
    unfold retryExec
    rw [this]
    exact congrArg (Prod.mk (Except.error e)) (by omega)
  · intro patterns maxA run e h0 hnm
    unfold retryExec
    cases hr : maxA - 1 with
    | zero => simp [retryExecAux, h0]
    | succ r => simp [retryExecAux, h0, hnm]

theorem retry_policy_contract_witness :
    retryExec ["BUSY"] 3 (fun _ => (Except.error "xBUSYz" : Except String Nat)) =
      (Except.error "xBUSYz", 3) ∧
    retryExec ["BUSY"] 5 (fun _ => (Except.error "EFAIL" : Except String Nat)) =
      (Except.error "EFAIL", 1) ∧
    (builtHandle optsBase).options.retry.max = optsBase.db_query_retry_max ∧
    (builtHandle optsBase).options.retry.matchList =
      jsSplitCommaWs optsBase.db_query_retry_match := by
  have h5 := retry_policy_contract.2.2.2.2.1 optsBase envBase (builtHandle optsBase)
    (prepare_db_nonDaemon optsBase envBase rfl rfl)
  refine ⟨?_, ?_, h5.1, h5.2⟩
  · exact retry_policy_contract.2.2.2.2.2.1 ["BUSY"] 3
      (fun _ => Except.error "xBUSYz") "xBUSYz" (by decide)
      (fun n hn => ⟨"xBUSYz", rfl, by decide⟩) rfl
  · exact retry_policy_contract.2.2.2.2.2.2 ["BUSY"] 5
      (fun _ => Except.error "EFAIL") "EFAIL" rfl (by decide)
